import Mathlib

/-!
Verification development for the vision-lab perception pipeline.

All numeric code is embedded over `ℚ` (exact rationals standing in for the
JavaScript IEEE doubles; every execution the claims talk about stays inside
the finite-float range, where JS arithmetic agrees with the exact rational
computation up to rounding, which none of the verified properties depend on).
Calls into the JS `Math` library that are genuinely transcendental
(`hypot`, `atan2`, `cos`, `sin`) are abstracted as an explicit operation
record `TrigOps`, so every definition stays executable and theorems
quantify over the library's behaviour.
-/

namespace VisionLab

/-- JavaScript `Math.round`: round half toward positive infinity. -/
def jsRound (x : ℚ) : ℤ := ⌊x + 1/2⌋

/-- `preprocessMetaRef` contents (ObjectDetector, src/unnamed/part_003 lines 47-55). -/
structure PreprocessMeta where
  scale : ℚ
  padX : ℚ
  padY : ℚ
  inputWidth : ℚ
  inputHeight : ℚ
  videoWidth : ℚ
  videoHeight : ℚ
  deriving Repr, DecidableEq

/-- Bounding box of a decoded detection, video-pixel space. -/
structure BBox where
  x : ℚ
  y : ℚ
  width : ℚ
  height : ℚ
  deriving Repr, DecidableEq

/-- `ObjectDetectionResult` as produced by `parseYoloOutput` (part_003). -/
structure ObjectDetectionResult where
  bbox : BBox
  label : String
  classId : ℤ
  confidence : ℚ
  deriving Repr, DecidableEq

/-- A raw output tensor: its dimensions and its flat data buffer. -/
structure Tensor where
  dims : List ℕ
  data : List ℚ
  deriving Repr, DecidableEq

/-- Detector configuration (the ObjectDetector component state that
`parseYoloOutput` reads: thresholds, labels, input size, letterbox flag). -/
structure DetectorConfig where
  confidenceThreshold : ℚ
  iouThreshold : ℚ
  labels : List String
  inputWidth : ℚ
  inputHeight : ℚ
  useLetterbox : Bool
  deriving Repr, DecidableEq

/-- `calculateIOU` (part_003 lines 217-232): intersection area over union
area of two corner-form boxes, `0` whenever the union is `≤ 0`. -/
def calculateIOU (a b : ℚ × ℚ × ℚ × ℚ) : ℚ :=
  let ax1 := a.1; let ay1 := a.2.1; let ax2 := a.2.2.1; let ay2 := a.2.2.2
  let bx1 := b.1; let by1 := b.2.1; let bx2 := b.2.2.1; let by2 := b.2.2.2
  let interX1 := max ax1 bx1
  let interY1 := max ay1 by1
  let interX2 := min ax2 bx2
  let interY2 := min ay2 by2
  let interArea := max 0 (interX2 - interX1) * max 0 (interY2 - interY1)
  let boxAArea := max 0 (ax2 - ax1) * max 0 (ay2 - ay1)
  let boxBArea := max 0 (bx2 - bx1) * max 0 (by2 - by1)
  let union := boxAArea + boxBArea - interArea
  if union ≤ 0 then 0 else interArea / union

/-- The candidate ordering used by `nonMaxSuppression`
(part_003 lines 235-238): indices sorted by score, descending.  The JS
`Array.prototype.sort` with comparator `b.score - a.score` is a stable
descending sort of the `{score, index}` pairs; `List.insertionSort` with
this relation is exactly that (stable, sorted by `≥` on scores). -/
def sortIndicesByScoreDesc (scores : List ℚ) : List ℕ :=
  (List.range scores.length).insertionSort
    (fun i j => scores.getD j 0 ≤ scores.getD i 0)

/-- The `while (sorted.length > 0)` loop of `nonMaxSuppression`
(part_003 lines 241-254), fuelled: keep the head, drop every pending
index whose IoU with the kept box reaches the threshold, repeat on the
remainder.  Each iteration consumes at least the head, so the pending
list strictly shrinks and its initial length is sufficient fuel (the
zero-fuel branch is never reached; see `nmsLoopFuel_eq_of_le`). -/
def nmsLoopFuel (boxes : List (ℚ × ℚ × ℚ × ℚ)) (threshold : ℚ) :
    ℕ → List ℕ → List ℕ
  | _, [] => []
  | 0, _ :: _ => []
  | fuel + 1, current :: rest =>
      current ::
        nmsLoopFuel boxes threshold fuel
          (rest.filter (fun idx =>
            calculateIOU (boxes.getD current (0, 0, 0, 0))
                (boxes.getD idx (0, 0, 0, 0)) < threshold))

/-- The `while` loop of `nonMaxSuppression`, with the fuel fixed to the
length of the pending list. -/
def nmsLoop (boxes : List (ℚ × ℚ × ℚ × ℚ)) (threshold : ℚ)
    (pending : List ℕ) : List ℕ :=
  nmsLoopFuel boxes threshold pending.length pending

/-- `nonMaxSuppression` (part_003 lines 234-256). -/
def nonMaxSuppression (boxes : List (ℚ × ℚ × ℚ × ℚ)) (scores : List ℚ)
    (threshold : ℚ) : List ℕ :=
  nmsLoop boxes threshold (sortIndicesByScoreDesc scores)

/-- JS `a || b` on strings: fall back when the string is empty (falsy). -/
def jsOrString (a b : String) : String := if a = "" then b else a

/-- JS `a || b` on numbers: fall back when the number is `0` (falsy). -/
def jsOrNum (a b : ℚ) : ℚ := if a = 0 then b else a

/-- `Math.max(0, Math.min(limit, v))`: the coordinate clamp used when
mapping decoded boxes back into the video frame (part_003 lines 333-336
and 499-502). -/
def clampDim (limit v : ℚ) : ℚ := max 0 (min limit v)

/-- The pre-filtered path's per-x-coordinate mapping from model-output
space back to video space (part_003 lines 316-330): letterbox mode
subtracts the pad and divides by the scale; stretch mode multiplies by
`videoWidth / inputWidth`. -/
def toVideoX (cfg : DetectorConfig) (meta : PreprocessMeta) (x : ℚ) : ℚ :=
  if cfg.useLetterbox then (x - meta.padX) / meta.scale
  else x * (meta.videoWidth / meta.inputWidth)

/-- The pre-filtered path's per-y-coordinate mapping back to video space
(part_003 lines 316-330). -/
def toVideoY (cfg : DetectorConfig) (meta : PreprocessMeta) (y : ℚ) : ℚ :=
  if cfg.useLetterbox then (y - meta.padY) / meta.scale
  else y * (meta.videoHeight / meta.inputHeight)

/-- One iteration of the pre-filtered `[1, N, 6]` decode loop
(part_003 lines 282-354): row `i` is `[x1, y1, x2, y2, confidence,
classId]`; rows below the confidence threshold or with a class id outside
the label list are skipped (`continue`), the rest are letterbox-inverted
(or stretch-scaled), clamped to the frame, and kept only with positive
width and height. -/
def parsePrefilteredRow (cfg : DetectorConfig) (meta : PreprocessMeta)
    (data : List ℚ) (i : ℕ) : Option ObjectDetectionResult :=
  let offset := i * 6
  let x1 := data.getD offset 0
  let y1 := data.getD (offset + 1) 0
  let x2 := data.getD (offset + 2) 0
  let y2 := data.getD (offset + 3) 0
  let confidence := data.getD (offset + 4) 0
  let classId : ℤ := jsRound (data.getD (offset + 5) 0)
  if confidence < cfg.confidenceThreshold then none
  else if classId < 0 ∨ (cfg.labels.length : ℤ) ≤ classId then none
  else
    let videoX1 := toVideoX cfg meta x1
    let videoY1 := toVideoY cfg meta y1
    let videoX2 := toVideoX cfg meta x2
    let videoY2 := toVideoY cfg meta y2
    let cx1 := clampDim meta.videoWidth videoX1
    let cy1 := clampDim meta.videoHeight videoY1
    let cx2 := clampDim meta.videoWidth videoX2
    let cy2 := clampDim meta.videoHeight videoY2
    let width := cx2 - cx1
    let height := cy2 - cy1
    if 0 < width ∧ 0 < height then
      some { bbox := ⟨cx1, cy1, width, height⟩
             label := jsOrString (cfg.labels.getD classId.toNat "")
               ("Class " ++ toString classId)
             classId := classId
             confidence := confidence }
    else none

/-- Tensor-layout inference of the generic YOLO path (part_003 lines
366-400): box-count/attribute-count/channel-order from the dims, with a
divisibility fallback on the flat length; `none` is the `return []` of an
unrecognized shape.  The `Bool` is `true` for channels-first. -/
def inferShape (dims : List ℕ) (dataLen : ℕ) : Option (ℕ × ℕ × Bool) :=
  let primary : ℕ × ℕ × Bool :=
    if dims.length = 3 then
      let d1 := dims.getD 1 0
      let d2 := dims.getD 2 0
      if d1 > d2 then (d2, d1, true) else (d1, d2, false)
    else if dims.length = 2 then (dims.getD 0 0, dims.getD 1 0, false)
    else (0, 0, false)
  if primary.1 = 0 ∨ primary.2.1 = 0 then
    if dataLen % 85 = 0 then some (dataLen / 85, 85, false)
    else if dataLen % 84 = 0 then some (dataLen / 84, 84, false)
    else if dataLen % 6 = 0 then some (dataLen / 6, 6, false)
    else none
  else some primary

/-- `getValue` (part_003 lines 417-422): attribute access respecting the
inferred channel order. -/
def getValue (channelsFirst : Bool) (numBoxes numAttrs : ℕ) (data : List ℚ)
    (i attr : ℕ) : ℚ :=
  if channelsFirst then data.getD (attr * numBoxes + i) 0
  else data.getD (i * numAttrs + attr) 0

/-- Best class search (part_003 lines 430-438): argmax of the class
scores, starting from `bestScore = 0`. -/
def bestClassOf (numClasses classStart : ℕ) (get : ℕ → ℚ) : ℕ × ℚ :=
  (List.range numClasses).foldl
    (fun best c =>
      let score := get (classStart + c)
      if score > best.2 then (c, score) else best)
    (0, 0)

/-- `maxCoord` (part_003 lines 413, 428): running max of the four box
values over all rows (accumulated before the confidence filter). -/
def maxCoordOf (numBoxes : ℕ) (get : ℕ → ℕ → ℚ) : ℚ :=
  (List.range numBoxes).foldl
    (fun m i => max m (max (get i 0) (max (get i 1) (max (get i 2) (get i 3)))))
    0

/-- A surviving generic-path candidate: the `boxes`/`scores`/`classIds`
parallel arrays of part_003 lines 410-462 at one shared index. -/
structure Candidate where
  box : ℚ × ℚ × ℚ × ℚ
  score : ℚ
  classId : ℕ
  deriving Repr, DecidableEq

/-- The per-row candidate loop of the generic YOLO path (part_003 lines
416-462): confidence = best class score × objectness (or 1), below the
threshold is skipped; box values are centre+size unless the minimal
6-value layout already looks corner-form. -/
def genericCandidates (cfg : DetectorConfig) (channelsFirst : Bool)
    (numBoxes numAttrs classStart numClasses : ℕ) (useObjectness : Bool)
    (data : List ℚ) : List Candidate :=
  (List.range numBoxes).foldl
    (fun acc i =>
      let get := getValue channelsFirst numBoxes numAttrs data i
      let v0 := get 0
      let v1 := get 1
      let v2 := get 2
      let v3 := get 3
      let best := bestClassOf numClasses classStart get
      let objectness := if useObjectness then get 4 else 1
      let confidence := best.2 * objectness
      if confidence < cfg.confidenceThreshold then acc
      else
        let isLikelyXyxy : Bool := decide (numAttrs = 6 ∧ v0 < v2 ∧ v1 < v3)
        let x1 := if isLikelyXyxy then v0 else v0 - v2 / 2
        let y1 := if isLikelyXyxy then v1 else v1 - v3 / 2
        let x2 := if isLikelyXyxy then v2 else v0 + v2 / 2
        let y2 := if isLikelyXyxy then v3 else v1 + v3 / 2
        acc ++ [⟨(x1, y1, x2, y2), confidence, best.1⟩])
    []

/-- The per-selected-index remap arrow function of the generic YOLO path
(part_003 lines 476-508): un-normalize, invert the letterbox (or apply
the stretch ratios), clamp into the frame, and attach the label
(`labels[classId] ?? class_<id>`).  The closed-over locals (`scaleX`,
`scaleY`, `ratioX`, `ratioY` and the candidate arrays) are explicit
parameters here. -/
def remapSelected (cfg : DetectorConfig) (meta : PreprocessMeta)
    (scaleX scaleY ratioX ratioY : ℚ) (cands : List Candidate)
    (index : ℕ) : ObjectDetectionResult :=
  let b := (cands.map (·.box)).getD index (0, 0, 0, 0)
  let s1 := (b.1 * scaleX, b.2.1 * scaleY, b.2.2.1 * scaleX, b.2.2.2 * scaleY)
  let s2 := if cfg.useLetterbox then
      ((s1.1 - meta.padX) / meta.scale, (s1.2.1 - meta.padY) / meta.scale,
       (s1.2.2.1 - meta.padX) / meta.scale, (s1.2.2.2 - meta.padY) / meta.scale)
    else (s1.1 * ratioX, s1.2.1 * ratioY, s1.2.2.1 * ratioX, s1.2.2.2 * ratioY)
  let classId := (cands.map (·.classId)).getD index 0
  let label := (cfg.labels.get? classId).getD ("class_" ++ toString classId)
  { bbox := ⟨clampDim meta.videoWidth s2.1, clampDim meta.videoHeight s2.2.1,
             max 0 (min meta.videoWidth s2.2.2.1 - clampDim meta.videoWidth s2.1),
             max 0 (min meta.videoHeight s2.2.2.2 - clampDim meta.videoHeight s2.2.1)⟩
    classId := (classId : ℤ)
    label := label
    confidence := (cands.map (·.score)).getD index 0 }

/-- `parseYoloOutput` (part_003 lines 258-509).  First branch: the
pre-filtered `[1, N, 6]` shape (`dims.length === 3 && dims[2] === 6`),
decoded row by row with no NMS.  Second branch: the generic YOLO decode
(layout inference, objectness heuristic, confidence filter, NMS,
normalized-coordinate detection, letterbox or stretch inversion, clamp). -/
def parseYoloOutput (cfg : DetectorConfig) (meta : PreprocessMeta)
    (output : Tensor) (videoWidth videoHeight : ℚ) :
    List ObjectDetectionResult :=
  let data := output.data
  let dims := output.dims
  if dims.length = 3 ∧ dims.getD 2 0 = 6 then
    let numDetections := dims.getD 1 0
    (List.range numDetections).foldl
      (fun acc i => acc ++ (parsePrefilteredRow cfg meta data i).toList)
      []
  else
    match inferShape dims data.length with
    | none => []
    | some (numBoxes, numAttrs, channelsFirst) =>
      let possibleClassesNoObj : ℤ := (numAttrs : ℤ) - 4
      let possibleClassesWithObj : ℤ := (numAttrs : ℤ) - 5
      let useObjectness : Bool := decide (0 < possibleClassesWithObj ∧
        (possibleClassesWithObj = (cfg.labels.length : ℤ) ∨
          possibleClassesNoObj ≠ (cfg.labels.length : ℤ)))
      let classStart := if useObjectness then 5 else 4
      let numClasses :=
        (if useObjectness then possibleClassesWithObj else possibleClassesNoObj).toNat
      let cands := genericCandidates cfg channelsFirst numBoxes numAttrs
        classStart numClasses useObjectness data
      if cands = [] then []
      else
        let maxCoord := maxCoordOf numBoxes
          (getValue channelsFirst numBoxes numAttrs data)
        let normalized := decide (maxCoord ≤ 3/2)
        let scaleX := if normalized then cfg.inputWidth else 1
        let scaleY := if normalized then cfg.inputHeight else 1
        let ratioX := if 0 < meta.inputWidth then meta.videoWidth / meta.inputWidth
          else videoWidth / cfg.inputWidth
        let ratioY := if 0 < meta.inputHeight then meta.videoHeight / meta.inputHeight
          else videoHeight / cfg.inputHeight
        let selected := nonMaxSuppression (cands.map (·.box))
          (cands.map (·.score)) cfg.iouThreshold
        selected.map (remapSelected cfg meta scaleX scaleY ratioX ratioY cands)

/-- The preprocessing metadata recorded by `preprocessImage` (part_003
lines 161-193): letterbox ratio and integer pad offsets, or the direct
stretch scale. -/
def preprocessMeta (inputWidth inputHeight videoWidth videoHeight : ℚ)
    (useLetterbox : Bool) : PreprocessMeta :=
  if useLetterbox ∧ 0 < videoWidth ∧ 0 < videoHeight then
    let ratio := min (inputWidth / videoWidth) (inputHeight / videoHeight)
    let newWidth : ℚ := (jsRound (videoWidth * ratio) : ℤ)
    let newHeight : ℚ := (jsRound (videoHeight * ratio) : ℤ)
    { scale := ratio
      padX := (⌊(inputWidth - newWidth) / 2⌋ : ℤ)
      padY := (⌊(inputHeight - newHeight) / 2⌋ : ℤ)
      inputWidth := inputWidth, inputHeight := inputHeight
      videoWidth := jsOrNum videoWidth inputWidth
      videoHeight := jsOrNum videoHeight inputHeight }
  else
    { scale := inputWidth / jsOrNum videoWidth inputWidth
      padX := 0, padY := 0
      inputWidth := inputWidth, inputHeight := inputHeight
      videoWidth := jsOrNum videoWidth inputWidth
      videoHeight := jsOrNum videoHeight inputHeight }

/-- The forward letterbox mapping realized by
`ctx.drawImage(video, padX, padY, newWidth, newHeight)` (part_003 line
177): a video-space coordinate lands at `pad + scale·v` in model-input
space.  `pad` is `padX` for the x axis and `padY` for the y axis. -/
def letterboxForward (scale pad v : ℚ) : ℚ := pad + v * scale

/-- The decoder's inverse letterbox transform (part_003 lines 318-321 and
484-487): subtract the pad, divide by the scale. -/
def letterboxInvert (scale pad x : ℚ) : ℚ := (x - pad) / scale

/-! ## Inference scheduler of the ObjectDetector (part_003 lines 108-119,
511-557, 564-575)

The component is driven by the single-threaded JS event loop, so its
behaviour is an interleaving of atomic handler runs.  The state below
records the mutable scheduler state: `detecting` is `isDetectingRef`,
`timers` counts pending `setTimeout(runDetection, …)` callbacks, and
`inflight` counts `session.run` calls that have been issued but whose
completion (or rejection) handler has not run yet. -/

structure SchedState where
  detecting : Bool
  timers : ℕ
  inflight : ℕ
  deriving Repr, DecidableEq

/-- The atomic events that can run on the event loop while a model is
loaded and the capability is active.  `start` is a `startDetection` call
(Start button / activation); `stop` is a `stopDetection` call (Stop
button, deactivation effect, unmount); `fire b` is a pending
`setTimeout(runDetection)` callback running with the video ready iff `b`;
`resolveOk`/`resolveErr` are the completion and rejection handlers of an
issued `session.run` call. -/
inductive SchedEvent where
  | start (ready : Bool)
  | stop
  | fire (ready : Bool)
  | resolveOk
  | resolveErr
  deriving Repr, DecidableEq

/-- The synchronous prefix of `runDetection` (part_003 lines 511-523):
return unless `isDetectingRef` is set; reschedule via `setTimeout` when
the video is not ready; otherwise issue the `session.run` call. -/
def runBody (ready : Bool) (s : SchedState) : SchedState :=
  if ¬ s.detecting then s
  else if ¬ ready then { s with timers := s.timers + 1 }
  else { s with inflight := s.inflight + 1 }

/-- One atomic handler run.  `start`: `startDetection` returns if
`isDetectingRef` is already set, else sets it and synchronously calls
`runDetection`.  `stop`: `stopDetection` clears the pending timer and the
flag.  `fire`: a pending timeout consumes itself and runs `runDetection`.
`resolveOk`: the `await session.run` continuation schedules the next
`setTimeout(runDetection, 150)` (with no re-check of `isDetectingRef`).
`resolveErr`: the catch block calls `stopDetection`. -/
def schedStep (s : SchedState) : SchedEvent → SchedState
  | .start ready => if s.detecting then s else runBody ready { s with detecting := true }
  | .stop => { s with detecting := false, timers := 0 }
  | .fire ready => if s.timers = 0 then s else runBody ready { s with timers := s.timers - 1 }
  | .resolveOk =>
      if s.inflight = 0 then s
      else { s with inflight := s.inflight - 1, timers := s.timers + 1 }
  | .resolveErr =>
      if s.inflight = 0 then s
      else { detecting := false, timers := 0, inflight := s.inflight - 1 }

/-- The initial scheduler state (component mounted, nothing running). -/
def schedInit : SchedState := ⟨false, 0, 0⟩

/-- Run a finite trace of handler events from the initial state. -/
def schedRun (trace : List SchedEvent) : SchedState :=
  trace.foldl schedStep schedInit

/-! ## Geometry normalizers

`Math.hypot`, `Math.atan2`, `Math.cos` and `Math.sin` are abstracted as
an operation record so the embeddings stay executable; `Number.isFinite`
is identically true on exact rationals, so the source's finiteness guards
(`isFinite`, `safeNumber`) collapse to the identity here. -/

structure TrigOps where
  hypot : ℚ → ℚ → ℚ
  atan2 : ℚ → ℚ → ℚ
  cos : ℚ → ℚ
  sin : ℚ → ℚ

/-- A 2-D landmark. -/
structure Pt where
  x : ℚ
  y : ℚ
  deriving Repr, DecidableEq

/-- A body keypoint with its confidence. -/
structure BodyKp where
  x : ℚ
  y : ℚ
  confidence : ℚ
  deriving Repr, DecidableEq

/-- `getNormalizedHandVector` of src/utils/handUtils.ts (lines 7-66):
translate by the wrist, scale by the max distance (floored at `1e-6`),
rotate the wrist→middle-finger-MCP axis onto the x axis, then flatten
ALL points (the wrist included). -/
def getNormalizedHandVector_hu (ops : TrigOps) (keypoints : List Pt) :
    List ℚ :=
  if keypoints.length = 0 then []
  else
    let wrist := keypoints.getD 0 ⟨0, 0⟩
    let translated := keypoints.map (fun kp => Pt.mk (kp.x - wrist.x) (kp.y - wrist.y))
    let maxDist := translated.foldl
      (fun m p => let d := ops.hypot p.x p.y; if d > m then d else m) 0
    let maxDist := if maxDist < 1/1000000 then 1/1000000 else maxDist
    let scaled := translated.map (fun p => Pt.mk (p.x / maxDist) (p.y / maxDist))
    let palmRef := (scaled.get? 9).getD (scaled.getD 0 ⟨0, 0⟩)
    let angle := ops.atan2 palmRef.y palmRef.x
    let cosA := ops.cos (-angle)
    let sinA := ops.sin (-angle)
    let rotated := scaled.map
      (fun p => Pt.mk (p.x * cosA - p.y * sinA) (p.x * sinA + p.y * cosA))
    rotated.foldl (fun acc p => acc ++ [p.x, p.y]) []

/-- `getNormalizedHandVector` of src/unnamed/part_006 (lines 345-414):
requires exactly 21 keypoints, same translate/scale/rotate pipeline, but
flattens from index 1 on (the wrist is omitted); every invalid case
returns the 40-long zero vector, and a final length check re-asserts the
fixed shape. -/
def getNormalizedHandVector_p6 (ops : TrigOps) (keypoints : List Pt) :
    List ℚ :=
  if keypoints.length ≠ 21 then List.replicate 40 0
  else
    let wrist := keypoints.getD 0 ⟨0, 0⟩
    let translated := keypoints.map (fun kp => Pt.mk (kp.x - wrist.x) (kp.y - wrist.y))
    let maxDist := translated.foldl
      (fun m p => let d := ops.hypot p.x p.y; if d > m then d else m) 0
    if maxDist < 1/1000000 then List.replicate 40 0
    else
      let scaled := translated.map (fun p => Pt.mk (p.x / maxDist) (p.y / maxDist))
      let middleMCP := (scaled.get? 9).getD ⟨1, 0⟩
      let angle := ops.atan2 middleMCP.y middleMCP.x
      let cosA := ops.cos (-angle)
      let sinA := ops.sin (-angle)
      let rotated := scaled.map
        (fun p => Pt.mk (p.x * cosA - p.y * sinA) (p.x * sinA + p.y * cosA))
      let vector := (rotated.drop 1).foldl (fun acc p => acc ++ [p.x, p.y]) []
      if vector.length = 40 then vector else List.replicate 40 0

/-- The confidence-gating step of the first `getNormalizedBodyVector`
variant (CombinationClassifier.tsx lines 697-701): low-confidence points
are zeroed, not dropped (gate `0.3`). -/
def bodyValidA (keypoints : List BodyKp) : List BodyKp :=
  (keypoints.take 17).map (fun kp =>
    BodyKp.mk (if kp.confidence > 3/10 then kp.x else 0)
      (if kp.confidence > 3/10 then kp.y else 0) kp.confidence)

/-- The hip-midpoint-translation step of the first
`getNormalizedBodyVector` variant (CombinationClassifier.tsx lines
706-725). -/
def bodyTranslatedA (keypoints : List BodyKp) : List BodyKp :=
  let valid := bodyValidA keypoints
  let leftHip := valid.getD 11 ⟨0, 0, 0⟩
  let rightHip := valid.getD 12 ⟨0, 0, 0⟩
  let hipCenterX := (leftHip.x + rightHip.x) / 2
  let hipCenterY := (leftHip.y + rightHip.y) / 2
  valid.map (fun kp =>
    BodyKp.mk (kp.x - hipCenterX) (kp.y - hipCenterY) kp.confidence)

/-- `getNormalizedBodyVector`, first variant (CombinationClassifier.tsx
lines 684-780): zero-filled 34-vector as the invalid sentinel, confidence
gate `0.3`, hip-midpoint translation, shoulder-width scale (epsilon
`1e-6`) with NO fallback, shoulder-line rotation, flatten. -/
def getNormalizedBodyVector_a (ops : TrigOps) (keypoints : List BodyKp) :
    List ℚ :=
  if keypoints.length < 17 then List.replicate 34 0
  else
    let valid := bodyValidA keypoints
    let leftHip := valid.getD 11 ⟨0, 0, 0⟩
    let rightHip := valid.getD 12 ⟨0, 0, 0⟩
    if leftHip.confidence < 3/10 ∨ rightHip.confidence < 3/10 then
      List.replicate 34 0
    else
      let translated := bodyTranslatedA keypoints
      if (valid.getD 5 ⟨0, 0, 0⟩).confidence < 3/10 ∨
          (valid.getD 6 ⟨0, 0, 0⟩).confidence < 3/10 then
        List.replicate 34 0
      else
        let leftShoulder := translated.getD 5 ⟨0, 0, 0⟩
        let rightShoulder := translated.getD 6 ⟨0, 0, 0⟩
        let shoulderWidth := ops.hypot (rightShoulder.x - leftShoulder.x)
          (rightShoulder.y - leftShoulder.y)
        if shoulderWidth < 1/1000000 then List.replicate 34 0
        else
          let scaled := translated.map (fun p =>
            BodyKp.mk (p.x / shoulderWidth) (p.y / shoulderWidth) p.confidence)
          let shoulderDx := (scaled.getD 6 ⟨0, 0, 0⟩).x - (scaled.getD 5 ⟨0, 0, 0⟩).x
          let shoulderDy := (scaled.getD 6 ⟨0, 0, 0⟩).y - (scaled.getD 5 ⟨0, 0, 0⟩).y
          let angle := ops.atan2 shoulderDy shoulderDx
          let cosA := ops.cos (-angle)
          let sinA := ops.sin (-angle)
          let rotated := scaled.map (fun p =>
            BodyKp.mk (p.x * cosA - p.y * sinA) (p.x * sinA + p.y * cosA) p.confidence)
          let vector := rotated.foldl (fun acc p => acc ++ [p.x, p.y]) []
          if vector.length = 34 then vector else List.replicate 34 0

/-- The scale step of the second `getNormalizedBodyVector` variant
(CombinationClassifier.tsx lines 874-883): shoulder distance of the
translated points, replaced by the max absolute translated y (the
vertical extent; `Math.max(...)` over the 17 non-negative values, so a
`0` fold base is exact) whenever it is degenerate (`< 1e-3`). -/
def bodyScaleB (ops : TrigOps) (translated : List BodyKp) : ℚ :=
  let ls := translated.getD 5 ⟨0, 0, 0⟩
  let rs := translated.getD 6 ⟨0, 0, 0⟩
  let scale := ops.hypot (rs.x - ls.x) (rs.y - ls.y)
  if scale < 1/1000 then (translated.map (fun p => |p.y|)).foldl max 0
  else scale

/-- The confidence-gating and hip-midpoint-translation steps of the
second `getNormalizedBodyVector` variant (CombinationClassifier.tsx lines
845-869), shared with `getNormalizedBodyVector_b`. -/
def bodyTranslatedB (keypoints : List BodyKp) : List BodyKp :=
  let pts := (keypoints.take 17).map (fun kp =>
    BodyKp.mk (if kp.confidence > 0 then kp.x else 0)
      (if kp.confidence > 0 then kp.y else 0) kp.confidence)
  let lh := pts.getD 11 ⟨0, 0, 0⟩
  let rh := pts.getD 12 ⟨0, 0, 0⟩
  let cx := (lh.x + rh.x) / 2
  let cy := (lh.y + rh.y) / 2
  pts.map (fun p => BodyKp.mk (p.x - cx) (p.y - cy) p.confidence)

/-- `getNormalizedBodyVector`, second variant (CombinationClassifier.tsx
lines 832-929): returns `null` (here `none`) as the invalid sentinel,
confidence gate `> 0`, hip-midpoint translation (invalid when BOTH hips
are gated out), shoulder-width scale with vertical-extent fallback
(epsilon `1e-3`), shoulder-line rotation only when both shoulders are
confident, flatten with a near-zero "energy" rejection. -/
def getNormalizedBodyVector_b (ops : TrigOps) (keypoints : List BodyKp) :
    Option (List ℚ) :=
  if keypoints.length < 17 then none
  else
    let pts := (keypoints.take 17).map (fun kp =>
      BodyKp.mk (if kp.confidence > 0 then kp.x else 0)
        (if kp.confidence > 0 then kp.y else 0) kp.confidence)
    let lh := pts.getD 11 ⟨0, 0, 0⟩
    let rh := pts.getD 12 ⟨0, 0, 0⟩
    if lh.confidence ≤ 0 ∧ rh.confidence ≤ 0 then none
    else
      let translated := bodyTranslatedB keypoints
      let ls := translated.getD 5 ⟨0, 0, 0⟩
      let rs := translated.getD 6 ⟨0, 0, 0⟩
      let scale := bodyScaleB ops translated
      if scale < 1/1000 then none
      else
        let scaled := translated.map (fun p =>
          BodyKp.mk (p.x / scale) (p.y / scale) p.confidence)
        let angle := if ls.confidence > 0 ∧ rs.confidence > 0 then
            ops.atan2 (rs.y - ls.y) (rs.x - ls.x)
          else 0
        let cosA := ops.cos (-angle)
        let sinA := ops.sin (-angle)
        let rotated := scaled.map (fun p =>
          BodyKp.mk (p.x * cosA - p.y * sinA) (p.x * sinA + p.y * cosA) p.confidence)
        let vector := rotated.foldl (fun acc p => acc ++ [p.x, p.y]) []
        let energy := rotated.foldl (fun e p => e + |p.x| + |p.y|) (0 : ℚ)
        if energy < 1/10000 then none
        else if vector.length = 34 then some vector
        else none

/-! ## Spec-side definitions and concrete inputs -/

/-- Intersection area of two corner-form boxes, transcribed from the
spec's words ("intersection-area"). -/
def specInterArea (a b : ℚ × ℚ × ℚ × ℚ) : ℚ :=
  max 0 (min a.2.2.1 b.2.2.1 - max a.1 b.1) *
    max 0 (min a.2.2.2 b.2.2.2 - max a.2.1 b.2.1)

/-- Area of one corner-form box (clamped at zero per dimension). -/
def specBoxArea (a : ℚ × ℚ × ℚ × ℚ) : ℚ :=
  max 0 (a.2.2.1 - a.1) * max 0 (a.2.2.2 - a.2.1)

/-- Union area of two corner-form boxes, transcribed from the spec's
words ("union-area"): sum of the areas minus the intersection. -/
def specUnionArea (a b : ℚ × ℚ × ℚ × ℚ) : ℚ :=
  specBoxArea a + specBoxArea b - specInterArea a b

/-- The single-inflight invariant, inductive over every event except a
`stopDetection` call: the pending-work budget (in-flight calls plus
pending timers) never exceeds one, and is zero whenever the `detecting`
flag is down. -/
def SchedInv (s : SchedState) : Prop :=
  s.inflight + s.timers ≤ 1 ∧ (s.detecting = false → s.inflight + s.timers = 0)

/-- Configuration of the spec's pre-filtered decode scenario: labels
`["a", "b", "car"]`, confidence threshold `0.5`. -/
def cfg3 : DetectorConfig :=
  { confidenceThreshold := 1/2, iouThreshold := 45/100,
    labels := ["a", "b", "car"], inputWidth := 640, inputHeight := 640,
    useLetterbox := true }

/-- Identity preprocessing (scale 1, no padding) on a 640×640 frame. -/
def meta3 : PreprocessMeta :=
  { scale := 1, padX := 0, padY := 0, inputWidth := 640, inputHeight := 640,
    videoWidth := 640, videoHeight := 640 }

/-- The scenario's raw output `[[50, 50, 150, 150, 0.9, 2]]` in the
pre-filtered `[1, N, 6]` shape. -/
def t3 : Tensor := { dims := [1, 1, 6], data := [50, 50, 150, 150, 9/10, 2] }

/-- Single-label configuration used by the decoder counterexamples. -/
def cfgX : DetectorConfig :=
  { confidenceThreshold := 1/4, iouThreshold := 45/100, labels := ["a"],
    inputWidth := 640, inputHeight := 640, useLetterbox := true }

/-- Identity preprocessing on a 100×100 frame. -/
def metaX : PreprocessMeta :=
  { scale := 1, padX := 0, padY := 0, inputWidth := 640, inputHeight := 640,
    videoWidth := 100, videoHeight := 100 }

/-- A pre-filtered row entirely right of and below the 100×100 frame:
it passes the confidence and class-bounds filters but clamps to a
zero-area box. -/
def tOutside : Tensor :=
  { dims := [1, 1, 6], data := [200, 200, 300, 300, 9/10, 0] }

/-- A pre-filtered row whose class id `5` is outside the single-label
list. -/
def tBadClass : Tensor :=
  { dims := [1, 1, 6], data := [10, 10, 20, 20, 9/10, 5] }

/-- Direct-stretch configuration for the generic-path counterexample. -/
def cfg4 : DetectorConfig :=
  { confidenceThreshold := 1/4, iouThreshold := 45/100, labels := ["a"],
    inputWidth := 640, inputHeight := 640, useLetterbox := false }

/-- Identity preprocessing on a 640×640 frame (stretch mode). -/
def meta4 : PreprocessMeta :=
  { scale := 1, padX := 0, padY := 0, inputWidth := 640, inputHeight := 640,
    videoWidth := 640, videoHeight := 640 }

/-- A generic-shape (`[1, 6]`) tensor whose single corner-form candidate
`(-200, 50, -100, 60)` lies entirely left of the frame, so the clamped
box degenerates to width `0`. -/
def t4 : Tensor := { dims := [1, 6], data := [-200, 50, -100, 60, 1, 9/10] }

/-- The decoded detection of the spec's pre-filtered scenario. -/
def det3 : ObjectDetectionResult :=
  { bbox := ⟨50, 50, 100, 100⟩, label := "car", classId := 2,
    confidence := 9/10 }

/-- The zero-width detection the generic path emits for `t4`. -/
def det4 : ObjectDetectionResult :=
  { bbox := ⟨0, 50, 0, 10⟩, label := "a", classId := 0, confidence := 9/10 }

/-- A generic-shape (`[1, 7]`) tensor: 4 box values (centre+size form),
an objectness of `1`, and two class scores with the best at class `1` —
out of range for the single-label list of `cfg4`. -/
def t5g : Tensor := { dims := [1, 7], data := [100, 100, 40, 20, 1, 0, 9/10] }

/-- The detection the generic path emits for `t5g`: its class id `1` is
outside the one-label list, so its label is the synthetic `class_1`. -/
def det5 : ObjectDetectionResult :=
  { bbox := ⟨80, 90, 40, 20⟩, label := "class_1", classId := 1,
    confidence := 9/10 }

/-- A concrete executable instantiation of the abstracted `Math`
operations, used to evaluate the normalizers at concrete inputs (the
structural facts proved about the normalizers hold for every `TrigOps`). -/
def opsQ : TrigOps :=
  { hypot := fun x y => x * x + y * y, atan2 := fun _ _ => 0,
    cos := fun _ => 1, sin := fun _ => 0 }

/-- A full 21-keypoint hand with a finite wrist and non-degenerate
scale. -/
def hand21 : List Pt := (List.range 21).map (fun i => ⟨(i : ℚ), 2 * (i : ℚ)⟩)

/-- A 17-keypoint body whose shoulders coincide (degenerate shoulder
width) while the hips are confident and the vertical extent is large. -/
def bodyCoShoulder : List BodyKp :=
  (List.range 17).map (fun i =>
    if i = 5 ∨ i = 6 then ⟨3, 3, 9/10⟩ else ⟨(i : ℚ), 2 * (i : ℚ), 9/10⟩)

/-- A fully confident 17-keypoint body with all points at the hip centre:
both the shoulder width and the vertical-extent fallback are
degenerate. -/
def bodyZeros : List BodyKp := List.replicate 17 ⟨0, 0, 1⟩

/-- A fully confident 17-keypoint body with unit shoulder width. -/
def bodyW : List BodyKp :=
  (List.range 17).map (fun i => if i = 6 then ⟨1, 0, 1⟩ else ⟨0, 0, 1⟩)

theorem nmsLoopFuel_eq_of_le (boxes : List (ℚ × ℚ × ℚ × ℚ)) (t : ℚ) :
    ∀ (f1 f2 : ℕ) (pending : List ℕ), pending.length ≤ f1 →
      pending.length ≤ f2 →
      nmsLoopFuel boxes t f1 pending = nmsLoopFuel boxes t f2 pending := by
  intro f1
  induction f1 with
  | zero =>
    intro f2 pending h1 _
    have hnil : pending = [] := List.length_eq_zero.mp (Nat.le_zero.mp h1)
    subst hnil
    cases f2 <;> rfl
  | succ g ih =>
    intro f2 pending h1 h2
    cases pending with
    | nil => cases f2 <;> rfl
    | cons c rest =>
      cases f2 with
      | zero => simp at h2
      | succ g2 =>
        simp only [nmsLoopFuel]
        have hg : rest.length ≤ g := Nat.le_of_succ_le_succ (by simpa using h1)
        have hg2 : rest.length ≤ g2 := Nat.le_of_succ_le_succ (by simpa using h2)
        congr 1
        exact ih g2 _ (le_trans (List.length_filter_le _ _) hg)
          (le_trans (List.length_filter_le _ _) hg2)

theorem nmsLoop_nil (boxes : List (ℚ × ℚ × ℚ × ℚ)) (t : ℚ) :
    nmsLoop boxes t [] = [] := rfl

theorem nmsLoop_cons (boxes : List (ℚ × ℚ × ℚ × ℚ)) (t : ℚ) (c : ℕ)
    (rest : List ℕ) :
    nmsLoop boxes t (c :: rest) =
      c :: nmsLoop boxes t (rest.filter (fun idx =>
        calculateIOU (boxes.getD c (0, 0, 0, 0))
          (boxes.getD idx (0, 0, 0, 0)) < t)) := by
  unfold nmsLoop
  simp only [List.length_cons, nmsLoopFuel]
  congr 1
  exact nmsLoopFuel_eq_of_le boxes t _ _ _ (List.length_filter_le _ _) le_rfl

theorem nmsLoopFuel_subset (boxes : List (ℚ × ℚ × ℚ × ℚ)) (t : ℚ) :
    ∀ (fuel : ℕ) (pending : List ℕ) (i : ℕ),
      i ∈ nmsLoopFuel boxes t fuel pending → i ∈ pending := by
  intro fuel
  induction fuel with
  | zero =>
    intro pending i h
    cases pending <;> simp [nmsLoopFuel] at h
  | succ g ih =>
    intro pending i h
    cases pending with
    | nil => simp [nmsLoopFuel] at h
    | cons c rest =>
      simp only [nmsLoopFuel, List.mem_cons] at h
      rcases h with h | h
      · exact h ▸ List.mem_cons_self _ _
      · exact List.mem_cons_of_mem _ (List.mem_of_mem_filter (ih _ _ h))

theorem mem_sortIndicesByScoreDesc (scores : List ℚ) (i : ℕ)
    (h : i ∈ sortIndicesByScoreDesc scores) : i < scores.length := by
  unfold sortIndicesByScoreDesc at h
  exact List.mem_range.mp
    ((List.perm_insertionSort _ (List.range scores.length)).mem_iff.mp h)

theorem sortIndicesByScoreDesc_sorted (scores : List ℚ) :
    (sortIndicesByScoreDesc scores).Pairwise
      (fun i j => scores.getD j 0 ≤ scores.getD i 0) := by
  unfold sortIndicesByScoreDesc
  haveI : IsTotal ℕ (fun i j => scores.getD j 0 ≤ scores.getD i 0) :=
    ⟨fun _ _ => le_total _ _⟩
  haveI : IsTrans ℕ (fun i j => scores.getD j 0 ≤ scores.getD i 0) :=
    ⟨fun _ _ _ h1 h2 => le_trans h2 h1⟩
  exact List.sorted_insertionSort _ _

theorem foldl_pushSome_eq_filterMap {α β : Type} (f : α → Option β) :
    ∀ (l : List α) (acc : List β),
      l.foldl (fun acc i => acc ++ (f i).toList) acc =
        acc ++ l.filterMap f := by
  intro l
  induction l with
  | nil => intro acc; simp
  | cons a l ih =>
    intro acc
    simp only [List.foldl_cons, List.filterMap_cons]
    cases hf : f a <;> simp [hf, ih]

theorem foldl_pushPair_length {α : Type} (g h : α → ℚ) :
    ∀ (l : List α) (acc : List ℚ),
      (l.foldl (fun acc p => acc ++ [g p, h p]) acc).length =
        acc.length + 2 * l.length := by
  intro l
  induction l with
  | nil => intro acc; simp
  | cons a l ih =>
    intro acc
    simp only [List.foldl_cons, List.length_cons, ih]
    simp [List.length_append]
    ring

theorem clampDim_nonneg (limit v : ℚ) : 0 ≤ clampDim limit v :=
  le_max_left _ _

theorem clampDim_le (limit v : ℚ) (h : 0 ≤ limit) : clampDim limit v ≤ limit :=
  max_le h (min_le_left _ _)

theorem clamp_width_bound (limit s1 s2 : ℚ) (h : 0 ≤ limit) :
    clampDim limit s1 + max 0 (min limit s2 - clampDim limit s1) ≤ limit := by
  rcases le_total (min limit s2 - clampDim limit s1) 0 with h0 | h0
  · rw [max_eq_left h0, add_zero]
    exact clampDim_le limit s1 h
  · rw [max_eq_right h0, add_sub_cancel]
    exact min_le_left _ _

theorem calculateIOU_comm (a b : ℚ × ℚ × ℚ × ℚ) :
    calculateIOU a b = calculateIOU b a := by
  obtain ⟨ax1, ay1, ax2, ay2⟩ := a
  obtain ⟨bx1, by1, bx2, by2⟩ := b
  simp only [calculateIOU]
  rw [max_comm ax1 bx1, max_comm ay1 by1, min_comm ax2 bx2, min_comm ay2 by2,
    add_comm (max 0 (ax2 - ax1) * max 0 (ay2 - ay1))
      (max 0 (bx2 - bx1) * max 0 (by2 - by1))]

theorem nms_two_box_dominant (a b : ℚ × ℚ × ℚ × ℚ) (sa sb t : ℚ)
    (hlt : sb < sa) (hiou : t ≤ calculateIOU a b) :
    nonMaxSuppression [a, b] [sa, sb] t = [0] := by
  have hr : List.range ([sa, sb] : List ℚ).length = [0, 1] := rfl
  have h01 : sortIndicesByScoreDesc [sa, sb] = [0, 1] := by
    simp [sortIndicesByScoreDesc, hr, List.insertionSort, List.orderedInsert,
      List.getD, hlt.le]
  unfold nonMaxSuppression
  rw [h01, nmsLoop_cons]
  have hfilter : List.filter (fun idx =>
      calculateIOU (([a, b] : List (ℚ × ℚ × ℚ × ℚ)).getD 0 (0, 0, 0, 0))
        (([a, b] : List (ℚ × ℚ × ℚ × ℚ)).getD idx (0, 0, 0, 0)) < t) [1] = [] := by
    simp [List.filter, List.getD, not_lt.mpr hiou]
  rw [hfilter, nmsLoop_nil]

theorem nms_two_box_dominant_rev (a b : ℚ × ℚ × ℚ × ℚ) (sa sb t : ℚ)
    (hlt : sb < sa) (hiou : t ≤ calculateIOU a b) :
    nonMaxSuppression [b, a] [sb, sa] t = [1] := by
  have hr : List.range ([sb, sa] : List ℚ).length = [0, 1] := rfl
  have h10 : sortIndicesByScoreDesc [sb, sa] = [1, 0] := by
    simp [sortIndicesByScoreDesc, hr, List.insertionSort, List.orderedInsert,
      List.getD, hlt.not_le]
  unfold nonMaxSuppression
  rw [h10, nmsLoop_cons]
  have hfilter : List.filter (fun idx =>
      calculateIOU (([b, a] : List (ℚ × ℚ × ℚ × ℚ)).getD 1 (0, 0, 0, 0))
        (([b, a] : List (ℚ × ℚ × ℚ × ℚ)).getD idx (0, 0, 0, 0)) < t) [0] = [] := by
    simp [List.filter, List.getD, not_lt.mpr hiou]
  rw [hfilter, nmsLoop_nil]

theorem nms_two_box_disjoint (a b : ℚ × ℚ × ℚ × ℚ) (sa sb t : ℚ)
    (hiou : calculateIOU a b = 0) (ht : 0 < t) :
    0 ∈ nonMaxSuppression [a, b] [sa, sb] t ∧
      1 ∈ nonMaxSuppression [a, b] [sa, sb] t := by
  have hr : List.range ([sa, sb] : List ℚ).length = [0, 1] := rfl
  have hba : calculateIOU b a = 0 := (calculateIOU_comm b a).trans hiou
  rcases le_or_lt sb sa with hle | hlt2
  · have h01 : sortIndicesByScoreDesc [sa, sb] = [0, 1] := by
      simp [sortIndicesByScoreDesc, hr, List.insertionSort, List.orderedInsert,
        List.getD, hle]
    unfold nonMaxSuppression
    rw [h01, nmsLoop_cons]
    have hfilter : List.filter (fun idx =>
        calculateIOU (([a, b] : List (ℚ × ℚ × ℚ × ℚ)).getD 0 (0, 0, 0, 0))
          (([a, b] : List (ℚ × ℚ × ℚ × ℚ)).getD idx (0, 0, 0, 0)) < t) [1] = [1] := by
      simp [List.filter, List.getD, hiou, ht]
    rw [hfilter, nmsLoop_cons]
    simp
  · have h10 : sortIndicesByScoreDesc [sa, sb] = [1, 0] := by
      simp [sortIndicesByScoreDesc, hr, List.insertionSort, List.orderedInsert,
        List.getD, hlt2.not_le]
    unfold nonMaxSuppression
    rw [h10, nmsLoop_cons]
    have hfilter : List.filter (fun idx =>
        calculateIOU (([a, b] : List (ℚ × ℚ × ℚ × ℚ)).getD 1 (0, 0, 0, 0))
          (([a, b] : List (ℚ × ℚ × ℚ × ℚ)).getD idx (0, 0, 0, 0)) < t) [0] = [0] := by
      simp [List.filter, List.getD, hba, ht]
    rw [hfilter, nmsLoop_cons]
    simp

/-- C1: `nonMaxSuppression` processes candidates in descending confidence
order (the sorted index list is pairwise score-descending), greedily keeps
the highest-scoring remaining index and removes every remaining index
whose IoU with the kept box reaches the threshold; `calculateIOU` is
intersection-area over union-area and `0` whenever the union is `≤ 0`;
consequently for a two-box input with IoU `≥ threshold` the
lower-confidence box is removed (whichever order it arrives in), a
two-box input with IoU `0` keeps both (for a positive threshold), and
empty input yields empty output. -/
theorem nms_greedy_spec_C1 :
    (∀ (boxes : List (ℚ × ℚ × ℚ × ℚ)) (t : ℚ),
      nonMaxSuppression boxes [] t = []) ∧
    (∀ a b : ℚ × ℚ × ℚ × ℚ, calculateIOU a b =
      if specUnionArea a b ≤ 0 then 0
      else specInterArea a b / specUnionArea a b) ∧
    (∀ scores : List ℚ, (sortIndicesByScoreDesc scores).Pairwise
      (fun i j => scores.getD j 0 ≤ scores.getD i 0)) ∧
    (∀ (boxes : List (ℚ × ℚ × ℚ × ℚ)) (t : ℚ) (c : ℕ) (rest : List ℕ),
      nmsLoop boxes t (c :: rest) =
        c :: nmsLoop boxes t (rest.filter (fun idx =>
          calculateIOU (boxes.getD c (0, 0, 0, 0))
            (boxes.getD idx (0, 0, 0, 0)) < t))) ∧
    (∀ (a b : ℚ × ℚ × ℚ × ℚ) (sa sb t : ℚ), sb < sa →
      t ≤ calculateIOU a b →
      nonMaxSuppression [a, b] [sa, sb] t = [0] ∧
      nonMaxSuppression [b, a] [sb, sa] t = [1]) ∧
    (∀ (a b : ℚ × ℚ × ℚ × ℚ) (sa sb t : ℚ), calculateIOU a b = 0 → 0 < t →
      0 ∈ nonMaxSuppression [a, b] [sa, sb] t ∧
      1 ∈ nonMaxSuppression [a, b] [sa, sb] t) := by
  refine ⟨fun boxes t => rfl, fun a b => rfl, sortIndicesByScoreDesc_sorted,
    nmsLoop_cons, fun a b sa sb t hlt hiou =>
      ⟨nms_two_box_dominant a b sa sb t hlt hiou,
       nms_two_box_dominant_rev a b sa sb t hlt hiou⟩,
    nms_two_box_disjoint⟩

/-- Witness for C1 at the spec's concrete boxes: corner-form
`(0,0,100,100)` and `(10,10,100,100)` have IoU `81/100 ≥ 45/100`, so only
the higher-confidence one survives, in either input order; two disjoint
unit boxes are both kept. -/
theorem nms_greedy_spec_C1_witness :
    nonMaxSuppression [(0, 0, 100, 100), (10, 10, 100, 100)]
        [9/10, 8/10] (45/100) = [0] ∧
    nonMaxSuppression [(10, 10, 100, 100), (0, 0, 100, 100)]
        [8/10, 9/10] (45/100) = [1] ∧
    0 ∈ nonMaxSuppression [(0, 0, 1, 1), (5, 5, 6, 6)] [9/10, 8/10] (45/100) ∧
    1 ∈ nonMaxSuppression [(0, 0, 1, 1), (5, 5, 6, 6)] [9/10, 8/10] (45/100) := by
  refine ⟨(nms_greedy_spec_C1.2.2.2.2.1 (0, 0, 100, 100) (10, 10, 100, 100)
      (9/10) (8/10) (45/100) (by norm_num) (by norm_num [calculateIOU])).1,
    (nms_greedy_spec_C1.2.2.2.2.1 (0, 0, 100, 100) (10, 10, 100, 100)
      (9/10) (8/10) (45/100) (by norm_num) (by norm_num [calculateIOU])).2,
    (nms_greedy_spec_C1.2.2.2.2.2 (0, 0, 1, 1) (5, 5, 6, 6)
      (9/10) (8/10) (45/100) (by norm_num [calculateIOU]) (by norm_num)).1,
    (nms_greedy_spec_C1.2.2.2.2.2 (0, 0, 1, 1) (5, 5, 6, 6)
      (9/10) (8/10) (45/100) (by norm_num [calculateIOU]) (by norm_num)).2⟩

/-- C10: the greedy NMS loop is a total function (the pending list
strictly shrinks each iteration, so its initial length is sufficient
fuel), and every index it returns is an index into the input score
list. -/
theorem nms_total_subset_C10 :
    ∀ (boxes : List (ℚ × ℚ × ℚ × ℚ)) (scores : List ℚ) (t : ℚ) (i : ℕ),
      i ∈ nonMaxSuppression boxes scores t → i < scores.length := by
  intro boxes scores t i h
  exact mem_sortIndicesByScoreDesc scores i
    (nmsLoopFuel_subset boxes t _ _ i h)

/-- Witness for C10: on a concrete one-box input the selected index is a
member of the output, and the theorem bounds it by the input length. -/
theorem nms_total_subset_C10_witness :
    0 ∈ nonMaxSuppression [(0, 0, 1, 1)] [1/2] (45/100) ∧
    0 < ([1/2] : List ℚ).length := by
  have hm : 0 ∈ nonMaxSuppression [(0, 0, 1, 1)] [1/2] (45/100) := by
    have hs : sortIndicesByScoreDesc [(1 : ℚ)/2] = [0] := rfl
    unfold nonMaxSuppression
    rw [hs, nmsLoop_cons]
    simp
  exact ⟨hm, nms_total_subset_C10 [(0, 0, 1, 1)] [1/2] (45/100) 0 hm⟩

theorem schedInv_init : SchedInv schedInit := by
  constructor <;> simp [schedInit]

theorem schedInv_step (s : SchedState) (e : SchedEvent) (hs : SchedInv s)
    (he : e ≠ SchedEvent.stop) : SchedInv (schedStep s e) := by
  obtain ⟨hsum, hdet⟩ := hs
  cases e with
  | start ready =>
    by_cases hd : s.detecting
    · simpa [schedStep, hd] using ⟨hsum, hdet⟩
    · have h0 : s.inflight + s.timers = 0 := hdet (by simpa using hd)
      cases ready <;>
        simp [schedStep, hd, runBody, SchedInv] <;> omega
  | stop => exact absurd rfl he
  | fire ready =>
    by_cases ht : s.timers = 0
    · simpa [schedStep, ht] using ⟨hsum, hdet⟩
    · have hdtrue : s.detecting = true := by
        by_contra hfalse
        have := hdet (by simpa using hfalse)
        omega
      cases ready <;>
        simp [schedStep, ht, runBody, hdtrue, SchedInv] <;> omega
  | resolveOk =>
    by_cases hi : s.inflight = 0
    · simpa [schedStep, hi] using ⟨hsum, hdet⟩
    · have hdtrue : s.detecting = true := by
        by_contra hfalse
        have := hdet (by simpa using hfalse)
        omega
      simp [schedStep, hi, hdtrue, SchedInv]
      omega
  | resolveErr =>
    by_cases hi : s.inflight = 0
    · simpa [schedStep, hi] using ⟨hsum, hdet⟩
    · simp [schedStep, hi, SchedInv]
      omega

theorem schedInv_foldl : ∀ (trace : List SchedEvent) (s : SchedState),
    SchedInv s → (∀ e ∈ trace, e ≠ SchedEvent.stop) →
    SchedInv (trace.foldl schedStep s) := by
  intro trace
  induction trace with
  | nil => intro s hs _; exact hs
  | cons e tr ih =>
    intro s hs htr
    simp only [List.foldl_cons]
    exact ih (schedStep s e) (schedInv_step s e hs (htr e (List.mem_cons_self e tr)))
      (fun e' he' => htr e' (List.mem_cons_of_mem e he'))

/-- C2 (amended): in the ObjectDetector scheduler, along every event
trace that never invokes `stopDetection`, every reachable state has at
most one in-flight `session.run` call: the `detecting`-flag guard in
`startDetection` and the issue-next-call-only-from-the-completion-handler
discipline of `runDetection` together keep the in-flight count at or
below one. -/
theorem sched_single_inflight_C2 (trace : List SchedEvent)
    (hnostop : ∀ e ∈ trace, e ≠ SchedEvent.stop) :
    (schedRun trace).inflight ≤ 1 := by
  have h := schedInv_foldl trace schedInit schedInv_init hnostop
  have h1 := h.1
  unfold schedRun
  omega

/-- Witness for C2: a stop-free trace (start, a completed inference, the
rescheduled timer firing) keeps the in-flight count at or below one. -/
theorem sched_single_inflight_C2_witness :
    (schedRun [SchedEvent.start true, SchedEvent.resolveOk,
      SchedEvent.fire true]).inflight ≤ 1 :=
  sched_single_inflight_C2
    [SchedEvent.start true, SchedEvent.resolveOk, SchedEvent.fire true]
    (by decide)

/-- Counterexample for C2 as stated: stopping the capability while a call
is in flight and immediately restarting it issues a second concurrent
`session.run` — `startDetection`'s `isDetectingRef` guard was cleared by
`stopDetection`, and the still-pending first call is not cancelled — so
a state with two in-flight calls is reachable under rapid toggling. -/
theorem sched_double_inflight_C2_counterexample :
    (schedRun [SchedEvent.start true, SchedEvent.stop,
      SchedEvent.start true]).inflight = 2 ∧
    ¬ (schedRun [SchedEvent.start true, SchedEvent.stop,
      SchedEvent.start true]).inflight ≤ 1 := by
  constructor <;> decide

theorem letterboxInvert_forward (scale pad v : ℚ) (hs : scale ≠ 0) :
    letterboxInvert scale pad (letterboxForward scale pad v) = v := by
  unfold letterboxInvert letterboxForward
  rw [show pad + v * scale - pad = v * scale by ring]
  exact mul_div_cancel_right₀ v hs

theorem preprocessMeta_scale_pos (inputW inputH videoW videoH : ℚ)
    (hiW : 0 < inputW) (hiH : 0 < inputH) (hvW : 0 < videoW)
    (hvH : 0 < videoH) :
    0 < (preprocessMeta inputW inputH videoW videoH true).scale := by
  unfold preprocessMeta
  rw [if_pos ⟨rfl, hvW, hvH⟩]
  exact lt_min (div_pos hiW hvW) (div_pos hiH hvH)

/-- C9: the letterbox forward transform (video coordinate ↦ recorded
scale times it plus the recorded pad) composed with the decoder's inverse
(subtract pad, divide by scale) is the identity: exactly, over exact
rationals, hence within floating-point tolerance in the JS floats — for
every recorded scale that is nonzero, and in particular for the metadata
`preprocessImage` records for any frame with positive dimensions, whose
scale is positive; all four corner coordinates of a box round-trip. -/
theorem letterbox_roundtrip_C9 :
    (∀ scale pad v : ℚ, scale ≠ 0 →
      letterboxInvert scale pad (letterboxForward scale pad v) = v) ∧
    (∀ inputW inputH videoW videoH : ℚ,
      0 < inputW → 0 < inputH → 0 < videoW → 0 < videoH →
      0 < (preprocessMeta inputW inputH videoW videoH true).scale) ∧
    (∀ inputW inputH videoW videoH x1 y1 x2 y2 : ℚ,
      0 < inputW → 0 < inputH → 0 < videoW → 0 < videoH →
      (letterboxInvert (preprocessMeta inputW inputH videoW videoH true).scale
          (preprocessMeta inputW inputH videoW videoH true).padX
          (letterboxForward (preprocessMeta inputW inputH videoW videoH true).scale
            (preprocessMeta inputW inputH videoW videoH true).padX x1) = x1) ∧
      (letterboxInvert (preprocessMeta inputW inputH videoW videoH true).scale
          (preprocessMeta inputW inputH videoW videoH true).padY
          (letterboxForward (preprocessMeta inputW inputH videoW videoH true).scale
            (preprocessMeta inputW inputH videoW videoH true).padY y1) = y1) ∧
      (letterboxInvert (preprocessMeta inputW inputH videoW videoH true).scale
          (preprocessMeta inputW inputH videoW videoH true).padX
          (letterboxForward (preprocessMeta inputW inputH videoW videoH true).scale
            (preprocessMeta inputW inputH videoW videoH true).padX x2) = x2) ∧
      (letterboxInvert (preprocessMeta inputW inputH videoW videoH true).scale
          (preprocessMeta inputW inputH videoW videoH true).padY
          (letterboxForward (preprocessMeta inputW inputH videoW videoH true).scale
            (preprocessMeta inputW inputH videoW videoH true).padY y2) = y2)) := by
  refine ⟨letterboxInvert_forward, preprocessMeta_scale_pos, ?_⟩
  intro inputW inputH videoW videoH x1 y1 x2 y2 hiW hiH hvW hvH
  have hs : (preprocessMeta inputW inputH videoW videoH true).scale ≠ 0 :=
    ne_of_gt (preprocessMeta_scale_pos inputW inputH videoW videoH hiW hiH hvW hvH)
  exact ⟨letterboxInvert_forward _ _ x1 hs, letterboxInvert_forward _ _ y1 hs,
    letterboxInvert_forward _ _ x2 hs, letterboxInvert_forward _ _ y2 hs⟩

/-- Witness for C9 at a concrete 640×640 model input, 1280×720 frame, and
the box (50, 50, 150, 150). -/
theorem letterbox_roundtrip_C9_witness :
    letterboxInvert 2 3 (letterboxForward 2 3 5) = 5 ∧
    0 < (preprocessMeta 640 640 1280 720 true).scale ∧
    letterboxInvert (preprocessMeta 640 640 1280 720 true).scale
      (preprocessMeta 640 640 1280 720 true).padX
      (letterboxForward (preprocessMeta 640 640 1280 720 true).scale
        (preprocessMeta 640 640 1280 720 true).padX 50) = 50 :=
  ⟨letterbox_roundtrip_C9.1 2 3 5 (by norm_num),
   letterbox_roundtrip_C9.2.1 640 640 1280 720 (by norm_num) (by norm_num)
     (by norm_num) (by norm_num),
   (letterbox_roundtrip_C9.2.2 640 640 1280 720 50 50 150 150 (by norm_num)
     (by norm_num) (by norm_num) (by norm_num)).1⟩

theorem parseYoloOutput_prefiltered_eq_filterMap (cfg : DetectorConfig)
    (meta : PreprocessMeta) (output : Tensor) (vw vh : ℚ)
    (h3 : output.dims.length = 3) (h6 : output.dims.getD 2 0 = 6) :
    parseYoloOutput cfg meta output vw vh =
      (List.range (output.dims.getD 1 0)).filterMap
        (parsePrefilteredRow cfg meta output.data) := by
  unfold parseYoloOutput
  rw [if_pos ⟨h3, h6⟩]
  exact (foldl_pushSome_eq_filterMap (parsePrefilteredRow cfg meta output.data)
    (List.range (output.dims.getD 1 0)) []).trans (List.nil_append _)

theorem parsePrefilteredRow_t3 :
    parsePrefilteredRow cfg3 meta3 [50, 50, 150, 150, 9/10, 2] 0 =
      some det3 := by
  norm_num [parsePrefilteredRow, cfg3, meta3, det3, clampDim, jsRound,
    jsOrString, toVideoX, toVideoY, List.getD]
  decide

theorem parse_t3_eval : parseYoloOutput cfg3 meta3 t3 640 640 = [det3] := by
  have hr : List.range 1 = [0] := rfl
  norm_num [parseYoloOutput, t3, hr, parsePrefilteredRow_t3]

/-- C3 (amended): when the raw tensor has the pre-filtered `[1, N, 6]`
shape, the decoder is a per-row map with no cross-row suppression (no
NMS); each row is kept subject to the confidence threshold, the class-id
bounds filter, and additionally a positive-clamped-extent check (dropped
by the original claim); for the spec's scenario — raw output
`[[50, 50, 150, 150, 0.9, 2]]`, labels `["a", "b", "car"]`, threshold
`0.5`, identity preprocessing — it returns exactly one detection
`(label "car", confidence 0.9, box (50, 50, 100, 100))`. -/
theorem parse_prefiltered_C3 :
    (∀ (cfg : DetectorConfig) (meta : PreprocessMeta) (output : Tensor)
      (vw vh : ℚ), output.dims.length = 3 → output.dims.getD 2 0 = 6 →
      parseYoloOutput cfg meta output vw vh =
        (List.range (output.dims.getD 1 0)).filterMap
          (parsePrefilteredRow cfg meta output.data)) ∧
    parseYoloOutput cfg3 meta3 t3 640 640 =
      [{ bbox := ⟨50, 50, 100, 100⟩, label := "car", classId := 2,
         confidence := 9/10 }] := by
  exact ⟨parseYoloOutput_prefiltered_eq_filterMap, parse_t3_eval⟩

/-- Witness for C3's universally quantified part at the scenario tensor:
the pre-filtered decode is literally the row-wise filterMap there. -/
theorem parse_prefiltered_C3_witness :
    parseYoloOutput cfg3 meta3 t3 640 640 =
      (List.range (t3.dims.getD 1 0)).filterMap
        (parsePrefilteredRow cfg3 meta3 t3.data) :=
  parse_prefiltered_C3.1 cfg3 meta3 t3 640 640 rfl rfl

/-- Counterexample for C3 as stated: the claim says the pre-filtered path
applies ONLY the confidence and class-bounds filters, but a row that
passes both (confidence `0.9 ≥ 0.25`, class id `0` within the one-label
list) and whose box lies outside the frame is still dropped — the decoder
additionally discards rows whose clamped box has non-positive extent, so
the output is empty rather than a singleton. -/
theorem parse_prefiltered_C3_counterexample :
    parseYoloOutput cfgX metaX tOutside 100 100 = [] ∧
    ¬ (tOutside.data.getD 4 0 < cfgX.confidenceThreshold) ∧
    0 ≤ jsRound (tOutside.data.getD 5 0) ∧
    jsRound (tOutside.data.getD 5 0) < (cfgX.labels.length : ℤ) := by
  have hrow : parsePrefilteredRow cfgX metaX [200, 200, 300, 300, 9/10, 0] 0 =
      none := by
    norm_num [parsePrefilteredRow, cfgX, metaX, clampDim, jsRound,
      jsOrString, toVideoX, toVideoY, List.getD]
  have hr : List.range 1 = [0] := rfl
  refine ⟨?_, ?_, ?_, ?_⟩
  · norm_num [parseYoloOutput, tOutside, hr, hrow]
  · norm_num [tOutside, cfgX, List.getD]
  · norm_num [tOutside, jsRound, List.getD]
  · norm_num [tOutside, cfgX, jsRound, List.getD]

theorem prefiltered_box_bounds (vw vh vx1 vy1 vx2 vy2 : ℚ)
    (hw : 0 ≤ vw) (hh : 0 ≤ vh) :
    0 ≤ clampDim vw vx1 ∧ 0 ≤ clampDim vh vy1 ∧
    clampDim vw vx1 + (clampDim vw vx2 - clampDim vw vx1) ≤ vw ∧
    clampDim vh vy1 + (clampDim vh vy2 - clampDim vh vy1) ≤ vh := by
  refine ⟨clampDim_nonneg _ _, clampDim_nonneg _ _, ?_, ?_⟩
  · have := clampDim_le vw vx2 hw
    linarith
  · have := clampDim_le vh vy2 hh
    linarith

theorem parsePrefilteredRow_some_props (cfg : DetectorConfig)
    (meta : PreprocessMeta) (data : List ℚ) (i : ℕ) (d : ObjectDetectionResult)
    (h : parsePrefilteredRow cfg meta data i = some d)
    (hw : 0 ≤ meta.videoWidth) (hh : 0 ≤ meta.videoHeight) :
    0 ≤ d.bbox.x ∧ 0 ≤ d.bbox.y ∧
    d.bbox.x + d.bbox.width ≤ meta.videoWidth ∧
    d.bbox.y + d.bbox.height ≤ meta.videoHeight ∧
    0 < d.bbox.width ∧ 0 < d.bbox.height := by
  simp only [parsePrefilteredRow] at h
  split at h
  next => exact absurd h (by simp)
  next =>
    split at h
    next => exact absurd h (by simp)
    next =>
      split at h
      next h3 =>
        rw [Option.some_inj] at h
        subst h
        have hb := prefiltered_box_bounds meta.videoWidth meta.videoHeight
          (toVideoX cfg meta (data.getD (i * 6) 0))
          (toVideoY cfg meta (data.getD (i * 6 + 1) 0))
          (toVideoX cfg meta (data.getD (i * 6 + 2) 0))
          (toVideoY cfg meta (data.getD (i * 6 + 3) 0)) hw hh
        exact ⟨hb.1, hb.2.1, hb.2.2.1, hb.2.2.2, h3.1, h3.2⟩
      next => exact absurd h (by simp)

theorem parsePrefilteredRow_some_classId (cfg : DetectorConfig)
    (meta : PreprocessMeta) (data : List ℚ) (i : ℕ) (d : ObjectDetectionResult)
    (h : parsePrefilteredRow cfg meta data i = some d) :
    0 ≤ d.classId ∧ d.classId < (cfg.labels.length : ℤ) := by
  simp only [parsePrefilteredRow] at h
  split at h
  next => exact absurd h (by simp)
  next =>
    split at h
    next => exact absurd h (by simp)
    next h2 =>
      push_neg at h2
      split at h
      next =>
        rw [Option.some_inj] at h
        subst h
        exact ⟨h2.1, h2.2⟩
      next => exact absurd h (by simp)

theorem mem_parseYolo_generic (cfg : DetectorConfig) (meta : PreprocessMeta)
    (output : Tensor) (vw vh : ℚ) (d : ObjectDetectionResult)
    (hng : ¬ (output.dims.length = 3 ∧ output.dims.getD 2 0 = 6))
    (hd : d ∈ parseYoloOutput cfg meta output vw vh) :
    ∃ sx sy rx ry cands index,
      d = remapSelected cfg meta sx sy rx ry cands index := by
  unfold parseYoloOutput at hd
  rw [if_neg hng] at hd
  rcases hshape : inferShape output.dims output.data.length with _ | ⟨⟨nb, na, cf⟩⟩
  · rw [hshape] at hd
    simp at hd
  · rw [hshape] at hd
    simp only [List.mem_ite_nil_left, List.mem_map] at hd
    obtain ⟨-, idx, -, rfl⟩ := hd
    exact ⟨_, _, _, _, _, idx, rfl⟩

theorem remapSelected_bounds (cfg : DetectorConfig) (meta : PreprocessMeta)
    (sx sy rx ry : ℚ) (cands : List Candidate) (index : ℕ)
    (hw : 0 ≤ meta.videoWidth) (hh : 0 ≤ meta.videoHeight) :
    0 ≤ (remapSelected cfg meta sx sy rx ry cands index).bbox.x ∧
    0 ≤ (remapSelected cfg meta sx sy rx ry cands index).bbox.y ∧
    (remapSelected cfg meta sx sy rx ry cands index).bbox.x +
      (remapSelected cfg meta sx sy rx ry cands index).bbox.width ≤
      meta.videoWidth ∧
    (remapSelected cfg meta sx sy rx ry cands index).bbox.y +
      (remapSelected cfg meta sx sy rx ry cands index).bbox.height ≤
      meta.videoHeight ∧
    0 ≤ (remapSelected cfg meta sx sy rx ry cands index).bbox.width ∧
    0 ≤ (remapSelected cfg meta sx sy rx ry cands index).bbox.height :=
  ⟨clampDim_nonneg _ _, clampDim_nonneg _ _, clamp_width_bound _ _ _ hw,
    clamp_width_bound _ _ _ hh, le_max_left _ _, le_max_left _ _⟩

theorem remapSelected_label (cfg : DetectorConfig) (meta : PreprocessMeta)
    (sx sy rx ry : ℚ) (cands : List Candidate) (index : ℕ) :
    (remapSelected cfg meta sx sy rx ry cands index).label =
      (cfg.labels.get? (remapSelected cfg meta sx sy rx ry cands index).classId.toNat).getD
        ("class_" ++ toString
          (remapSelected cfg meta sx sy rx ry cands index).classId.toNat) := by
  simp only [remapSelected, Int.toNat_natCast]

theorem cands_t4 : genericCandidates cfg4 false 1 6 5 1 true
    [-200, 50, -100, 60, 1, 9/10] =
    [⟨(-200, 50, -100, 60), 9/10, 0⟩] := by
  have hr : List.range 1 = [0] := rfl
  norm_num [genericCandidates, bestClassOf, getValue, List.getD, hr, cfg4]

theorem nms_t4 : nonMaxSuppression [((-200 : ℚ), (50 : ℚ), (-100 : ℚ), (60 : ℚ))]
    [9/10] cfg4.iouThreshold = [0] := rfl

theorem remap_t4 : remapSelected cfg4 meta4 1 1 1 1
    [⟨(-200, 50, -100, 60), 9/10, 0⟩] 0 = det4 := by
  norm_num [remapSelected, clampDim, List.getD, cfg4, meta4, det4]

theorem parse_t4_eval : parseYoloOutput cfg4 meta4 t4 640 640 = [det4] := by
  unfold parseYoloOutput
  rw [if_neg (by decide)]
  rw [show inferShape t4.dims t4.data.length = some (1, 6, false) from rfl]
  have hr : List.range 1 = [0] := rfl
  have hlab : cfg4.labels = ["a"] := rfl
  have hmiw : meta4.inputWidth = 640 := rfl
  have hmih : meta4.inputHeight = 640 := rfl
  have hmvw : meta4.videoWidth = 640 := rfl
  have hmvh : meta4.videoHeight = 640 := rfl
  norm_num [t4, maxCoordOf, getValue, List.getD, hr, hlab, hmiw, hmih,
    hmvw, hmvh, cands_t4, nms_t4, remap_t4]

theorem cands_t5g : genericCandidates cfg4 false 1 7 5 2 true
    [100, 100, 40, 20, 1, 0, 9/10] =
    [⟨(80, 90, 120, 110), 9/10, 1⟩] := by
  have hr : List.range 1 = [0] := rfl
  have hr2 : List.range 2 = [0, 1] := rfl
  norm_num [genericCandidates, bestClassOf, getValue, List.getD, hr, hr2, cfg4]

theorem nms_t5g : nonMaxSuppression [((80 : ℚ), (90 : ℚ), (120 : ℚ), (110 : ℚ))]
    [9/10] cfg4.iouThreshold = [0] := rfl

theorem remap_t5g : remapSelected cfg4 meta4 1 1 1 1
    [⟨(80, 90, 120, 110), 9/10, 1⟩] 0 = det5 := by
  norm_num [remapSelected, clampDim, List.getD, cfg4, meta4, det5]
  rfl

theorem parse_t5g_eval : parseYoloOutput cfg4 meta4 t5g 640 640 = [det5] := by
  unfold parseYoloOutput
  rw [if_neg (by decide)]
  rw [show inferShape t5g.dims t5g.data.length = some (1, 7, false) from rfl]
  have hr : List.range 1 = [0] := rfl
  have hlab : cfg4.labels = ["a"] := rfl
  have hmiw : meta4.inputWidth = 640 := rfl
  have hmih : meta4.inputHeight = 640 := rfl
  have hmvw : meta4.videoWidth = 640 := rfl
  have hmvh : meta4.videoHeight = 640 := rfl
  have htn : Int.toNat 2 = 2 := rfl
  norm_num [t5g, maxCoordOf, getValue, List.getD, hr, hlab, hmiw, hmih,
    hmvw, hmvh, htn, cands_t5g, nms_t5g, remap_t5g]

/-- C4 (amended): every detection the decoder returns lies within the
frame recorded in the preprocessing metadata — `0 ≤ x`, `0 ≤ y`,
`x + width ≤ videoWidth`, `y + height ≤ videoHeight` — with NON-NEGATIVE
width and height; strict positivity holds on the pre-filtered decode
path (which discards degenerate boxes), but the generic path can emit
zero-width or zero-height boxes, so the original strict claim fails
there. -/
theorem parse_bounds_C4 (cfg : DetectorConfig) (meta : PreprocessMeta)
    (output : Tensor) (vw vh : ℚ) (hw : 0 ≤ meta.videoWidth)
    (hh : 0 ≤ meta.videoHeight) :
    ∀ d ∈ parseYoloOutput cfg meta output vw vh,
      0 ≤ d.bbox.x ∧ 0 ≤ d.bbox.y ∧
      d.bbox.x + d.bbox.width ≤ meta.videoWidth ∧
      d.bbox.y + d.bbox.height ≤ meta.videoHeight ∧
      0 ≤ d.bbox.width ∧ 0 ≤ d.bbox.height ∧
      ((output.dims.length = 3 ∧ output.dims.getD 2 0 = 6) →
        0 < d.bbox.width ∧ 0 < d.bbox.height) := by
  intro d hd
  by_cases hp : output.dims.length = 3 ∧ output.dims.getD 2 0 = 6
  · rw [parseYoloOutput_prefiltered_eq_filterMap cfg meta output vw vh
      hp.1 hp.2] at hd
    obtain ⟨i, -, hrow⟩ := List.mem_filterMap.mp hd
    have hprops := parsePrefilteredRow_some_props cfg meta output.data i d
      hrow hw hh
    exact ⟨hprops.1, hprops.2.1, hprops.2.2.1, hprops.2.2.2.1,
      le_of_lt hprops.2.2.2.2.1, le_of_lt hprops.2.2.2.2.2,
      fun _ => ⟨hprops.2.2.2.2.1, hprops.2.2.2.2.2⟩⟩
  · obtain ⟨sx, sy, rx, ry, cands, idx, rfl⟩ :=
      mem_parseYolo_generic cfg meta output vw vh d hp hd
    have hprops := remapSelected_bounds cfg meta sx sy rx ry cands idx hw hh
    exact ⟨hprops.1, hprops.2.1, hprops.2.2.1, hprops.2.2.2.1,
      hprops.2.2.2.2.1, hprops.2.2.2.2.2, fun hc => absurd hc hp⟩

/-- Witness for C4 at the pre-filtered scenario: its single detection
satisfies all the frame bounds with strictly positive extent. -/
theorem parse_bounds_C4_witness :
    0 ≤ det3.bbox.x ∧ 0 ≤ det3.bbox.y ∧
    det3.bbox.x + det3.bbox.width ≤ meta3.videoWidth ∧
    det3.bbox.y + det3.bbox.height ≤ meta3.videoHeight ∧
    0 ≤ det3.bbox.width ∧ 0 ≤ det3.bbox.height ∧
    ((t3.dims.length = 3 ∧ t3.dims.getD 2 0 = 6) →
      0 < det3.bbox.width ∧ 0 < det3.bbox.height) :=
  parse_bounds_C4 cfg3 meta3 t3 640 640 (by norm_num [meta3])
    (by norm_num [meta3]) det3 (by rw [parse_t3_eval]; simp)

/-- Counterexample for C4 as stated: on the generic decode path, tensor
`t4`'s candidate box lies entirely left of the frame, and the decoder
emits it with clamped width `0` — a returned detection whose width is NOT
strictly positive. -/
theorem parse_bounds_C4_counterexample :
    parseYoloOutput cfg4 meta4 t4 640 640 = [det4] ∧
    det4 ∈ parseYoloOutput cfg4 meta4 t4 640 640 ∧
    det4.bbox.width = 0 ∧ ¬ (0 < det4.bbox.width) :=
  ⟨parse_t4_eval, by rw [parse_t4_eval]; simp, rfl, by norm_num [det4]⟩

/-- C5 (amended): on the generic decode path every returned detection's
label is `labels[classId]` when the class id indexes the label list and
the synthetic `class_<id>` otherwise — an out-of-range class id never
makes the decoder fail or drop the candidate, witnessed concretely: the
tensor `t5g` (best class `1` against the one-label list) is EMITTED as a
detection with the synthetic label `class_1`; on the pre-filtered path,
however, a candidate with an out-of-range class id is DROPPED (its class
id never reaches the output), contrary to the original claim that the
synthetic-label fallback applies there too. -/
theorem parse_labels_C5 :
    (∀ (cfg : DetectorConfig) (meta : PreprocessMeta) (output : Tensor)
      (vw vh : ℚ) (d : ObjectDetectionResult),
      ¬ (output.dims.length = 3 ∧ output.dims.getD 2 0 = 6) →
      d ∈ parseYoloOutput cfg meta output vw vh →
      d.label = (cfg.labels.get? d.classId.toNat).getD
        ("class_" ++ toString d.classId.toNat)) ∧
    (∀ (cfg : DetectorConfig) (meta : PreprocessMeta) (output : Tensor)
      (vw vh : ℚ) (d : ObjectDetectionResult),
      output.dims.length = 3 → output.dims.getD 2 0 = 6 →
      d ∈ parseYoloOutput cfg meta output vw vh →
      0 ≤ d.classId ∧ d.classId < (cfg.labels.length : ℤ)) ∧
    (parseYoloOutput cfg4 meta4 t5g 640 640 = [det5] ∧
      (cfg4.labels.length : ℤ) ≤ det5.classId ∧
      det5.label = "class_" ++ toString det5.classId.toNat) := by
  refine ⟨?_, ?_, parse_t5g_eval, by norm_num [cfg4, det5], rfl⟩
  · intro cfg meta output vw vh d hng hd
    obtain ⟨sx, sy, rx, ry, cands, idx, rfl⟩ :=
      mem_parseYolo_generic cfg meta output vw vh d hng hd
    exact remapSelected_label cfg meta sx sy rx ry cands idx
  · intro cfg meta output vw vh d h3 h6 hd
    rw [parseYoloOutput_prefiltered_eq_filterMap cfg meta output vw vh h3 h6] at hd
    obtain ⟨i, -, hrow⟩ := List.mem_filterMap.mp hd
    exact parsePrefilteredRow_some_classId cfg meta output.data i d hrow

/-- Witness for C5: the label formula applied at the emitted out-of-range
detection of `t5g` — the `class_<id>` fallback actually fires — and the
in-range clause applied at the pre-filtered scenario detection. -/
theorem parse_labels_C5_witness :
    det5.label = (cfg4.labels.get? det5.classId.toNat).getD
      ("class_" ++ toString det5.classId.toNat) ∧
    det5 ∈ parseYoloOutput cfg4 meta4 t5g 640 640 ∧
    0 ≤ det3.classId ∧ det3.classId < (cfg3.labels.length : ℤ) := by
  have hmem : det5 ∈ parseYoloOutput cfg4 meta4 t5g 640 640 := by
    rw [parse_labels_C5.2.2.1]
    simp
  refine ⟨parse_labels_C5.1 cfg4 meta4 t5g 640 640 det5 (by decide) hmem,
    hmem,
    parse_labels_C5.2.1 cfg3 meta3 t3 640 640 det3 rfl rfl
      (by rw [parse_t3_eval]; simp)⟩

/-- Counterexample for C5 as stated: on the pre-filtered path a row with
confidence `0.9` (above threshold) whose class id `5` is outside the
one-label list is dropped entirely — the decoder returns no detection for
it instead of one with a synthetic label. -/
theorem parse_labels_C5_counterexample :
    parseYoloOutput cfgX metaX tBadClass 100 100 = [] ∧
    ¬ (tBadClass.data.getD 4 0 < cfgX.confidenceThreshold) ∧
    (cfgX.labels.length : ℤ) ≤ jsRound (tBadClass.data.getD 5 0) := by
  have hrow : parsePrefilteredRow cfgX metaX [10, 10, 20, 20, 9/10, 5] 0 =
      none := by
    norm_num [parsePrefilteredRow, cfgX, metaX, jsRound, List.getD]
  have hr : List.range 1 = [0] := rfl
  refine ⟨?_, ?_, ?_⟩
  · norm_num [parseYoloOutput, tBadClass, hr, hrow]
  · norm_num [tBadClass, cfgX, List.getD]
  · norm_num [tBadClass, cfgX, jsRound, List.getD]

theorem hu_length (ops : TrigOps) (kps : List Pt) (h : ¬ kps.length = 0) :
    (getNormalizedHandVector_hu ops kps).length = 2 * kps.length := by
  unfold getNormalizedHandVector_hu
  rw [if_neg h]
  simp [foldl_pushPair_length]

theorem p6_length (ops : TrigOps) (kps : List Pt) :
    (getNormalizedHandVector_p6 ops kps).length = 40 := by
  simp only [getNormalizedHandVector_p6]
  split_ifs with h1 h2 h3
  · simp
  · simp
  · exact h3
  · simp

theorem bodyA_length (ops : TrigOps) (kps : List BodyKp) :
    (getNormalizedBodyVector_a ops kps).length = 34 := by
  simp only [getNormalizedBodyVector_a]
  split_ifs with h1 h2 h3 h4 h5
  · simp
  · simp
  · simp
  · simp
  · exact h5
  · simp

/-- C6 (amended): the part_006 hand normalizer omits the origin (wrist)
point when flattening and always returns exactly 40 values, but the
handUtils variant flattens every rotated point — the wrist included — so
a full 21-keypoint hand yields 42 values there, not 40. -/
theorem hand_vector_C6 :
    (∀ (ops : TrigOps) (kps : List Pt),
      (getNormalizedHandVector_p6 ops kps).length = 40) ∧
    (∀ (ops : TrigOps) (kps : List Pt), kps.length = 21 →
      (getNormalizedHandVector_hu ops kps).length = 42) := by
  refine ⟨p6_length, fun ops kps h => ?_⟩
  rw [hu_length ops kps (by omega), h]

/-- Witness for C6 at a concrete full hand: 40 values from the part_006
normalizer, 42 from the handUtils one. -/
theorem hand_vector_C6_witness :
    (getNormalizedHandVector_p6 opsQ hand21).length = 40 ∧
    (getNormalizedHandVector_hu opsQ hand21).length = 42 :=
  ⟨hand_vector_C6.1 opsQ hand21,
   hand_vector_C6.2 opsQ hand21 rfl⟩

/-- Counterexample for C6 as stated: the handUtils
`getNormalizedHandVector` on a full 21-keypoint hand returns 42 values —
it does not omit the wrist — refuting "the hand normalizer's output
vector … has exactly 40 values". -/
theorem hand_vector_C6_counterexample :
    hand21.length = 21 ∧
    (getNormalizedHandVector_hu opsQ hand21).length = 42 ∧
    ¬ ((getNormalizedHandVector_hu opsQ hand21).length = 40) := by
  have h21 : hand21.length = 21 := rfl
  have h := hu_length opsQ hand21 (by rw [h21]; omega)
  rw [h21] at h
  exact ⟨h21, by rw [h], by rw [h]; omega⟩

/-- C7 (amended): the part_006 hand normalizer and the line-684 body
normalizer collapse every invalid input to a fixed-shape zero-filled
sentinel (40- and 34-long respectively, the body one having fixed length
34 on every input); but the line-832 body normalizer returns `null`
(`none`) on invalid input, and the handUtils hand normalizer returns the
empty array — a differently-shaped result — so the original
same-fixed-shape-sentinel claim fails for those two. -/
theorem normalizer_sentinel_C7 :
    (∀ (ops : TrigOps) (kps : List Pt), kps.length ≠ 21 →
      getNormalizedHandVector_p6 ops kps = List.replicate 40 0) ∧
    (∀ (ops : TrigOps) (kps : List BodyKp), kps.length < 17 →
      getNormalizedBodyVector_a ops kps = List.replicate 34 0) ∧
    (∀ (ops : TrigOps) (kps : List BodyKp),
      (getNormalizedBodyVector_a ops kps).length = 34) ∧
    (∀ (ops : TrigOps) (kps : List BodyKp), kps.length < 17 →
      getNormalizedBodyVector_b ops kps = none) ∧
    (∀ ops : TrigOps, getNormalizedHandVector_hu ops [] = []) := by
  refine ⟨fun ops kps h => ?_, fun ops kps h => ?_, bodyA_length,
    fun ops kps h => ?_, fun ops => rfl⟩
  · unfold getNormalizedHandVector_p6
    rw [if_pos h]
  · unfold getNormalizedBodyVector_a
    rw [if_pos h]
  · unfold getNormalizedBodyVector_b
    rw [if_pos h]

/-- Witness for C7 at concrete invalid inputs (empty landmark sets). -/
theorem normalizer_sentinel_C7_witness :
    getNormalizedHandVector_p6 opsQ [] = List.replicate 40 0 ∧
    getNormalizedBodyVector_a opsQ [] = List.replicate 34 0 ∧
    (getNormalizedBodyVector_a opsQ bodyCoShoulder).length = 34 ∧
    getNormalizedBodyVector_b opsQ [] = none ∧
    getNormalizedHandVector_hu opsQ [] = [] :=
  ⟨normalizer_sentinel_C7.1 opsQ [] (by decide),
   normalizer_sentinel_C7.2.1 opsQ [] (by decide),
   normalizer_sentinel_C7.2.2.1 opsQ bodyCoShoulder,
   normalizer_sentinel_C7.2.2.2.1 opsQ [] (by decide),
   normalizer_sentinel_C7.2.2.2.2 opsQ⟩

/-- Counterexample for C7 as stated: on a missing landmark set the
line-832 body normalizer returns `null` (`none`) rather than a
fixed-shape sentinel, and the handUtils hand normalizer returns the
empty array rather than a 42-long vector. -/
theorem normalizer_sentinel_C7_counterexample :
    getNormalizedBodyVector_b opsQ [] = none ∧
    getNormalizedHandVector_hu opsQ [] = [] ∧
    ([] : List ℚ).length ≠ 42 :=
  ⟨rfl, rfl, by decide⟩

theorem bodyScaleB_shoulder (ops : TrigOps) (t : List BodyKp)
    (h : ¬ (ops.hypot ((t.getD 6 ⟨0, 0, 0⟩).x - (t.getD 5 ⟨0, 0, 0⟩).x)
      ((t.getD 6 ⟨0, 0, 0⟩).y - (t.getD 5 ⟨0, 0, 0⟩).y) < 1/1000)) :
    bodyScaleB ops t =
      ops.hypot ((t.getD 6 ⟨0, 0, 0⟩).x - (t.getD 5 ⟨0, 0, 0⟩).x)
        ((t.getD 6 ⟨0, 0, 0⟩).y - (t.getD 5 ⟨0, 0, 0⟩).y) := by
  simp only [bodyScaleB]
  rw [if_neg h]

theorem bodyScaleB_fallback (ops : TrigOps) (t : List BodyKp)
    (h : ops.hypot ((t.getD 6 ⟨0, 0, 0⟩).x - (t.getD 5 ⟨0, 0, 0⟩).x)
      ((t.getD 6 ⟨0, 0, 0⟩).y - (t.getD 5 ⟨0, 0, 0⟩).y) < 1/1000) :
    bodyScaleB ops t = (t.map (fun p => |p.y|)).foldl max 0 := by
  simp only [bodyScaleB]
  rw [if_pos h]

theorem bodyB_scale_fail (ops : TrigOps) (kps : List BodyKp)
    (hscale : bodyScaleB ops (bodyTranslatedB kps) < 1/1000) :
    getNormalizedBodyVector_b ops kps = none := by
  simp only [getNormalizedBodyVector_b]
  split_ifs <;> rfl

theorem bodyA_no_fallback (ops : TrigOps) (kps : List BodyKp)
    (hsw : ops.hypot
      (((bodyTranslatedA kps).getD 6 ⟨0, 0, 0⟩).x -
        ((bodyTranslatedA kps).getD 5 ⟨0, 0, 0⟩).x)
      (((bodyTranslatedA kps).getD 6 ⟨0, 0, 0⟩).y -
        ((bodyTranslatedA kps).getD 5 ⟨0, 0, 0⟩).y) < 1/1000000) :
    getNormalizedBodyVector_a ops kps = List.replicate 34 0 := by
  simp only [getNormalizedBodyVector_a]
  split_ifs <;> rfl

/-- C8 (amended): in the line-832 body normalizer, the scale distance is
the shoulder width of the translated points, and when that is degenerate
(below `1e-3`) it falls back to the vertical extent (max `|y|`); when
even the resulting scale is below the epsilon the normalization fails
with the `null` sentinel.  The line-684 variant has NO fallback: a
degenerate shoulder width (below its `1e-6` epsilon) immediately yields
its zero-filled sentinel regardless of the vertical extent, contrary to
the original claim. -/
theorem body_scale_C8 :
    (∀ (ops : TrigOps) (t : List BodyKp),
      ¬ (ops.hypot ((t.getD 6 ⟨0, 0, 0⟩).x - (t.getD 5 ⟨0, 0, 0⟩).x)
        ((t.getD 6 ⟨0, 0, 0⟩).y - (t.getD 5 ⟨0, 0, 0⟩).y) < 1/1000) →
      bodyScaleB ops t =
        ops.hypot ((t.getD 6 ⟨0, 0, 0⟩).x - (t.getD 5 ⟨0, 0, 0⟩).x)
          ((t.getD 6 ⟨0, 0, 0⟩).y - (t.getD 5 ⟨0, 0, 0⟩).y)) ∧
    (∀ (ops : TrigOps) (t : List BodyKp),
      ops.hypot ((t.getD 6 ⟨0, 0, 0⟩).x - (t.getD 5 ⟨0, 0, 0⟩).x)
        ((t.getD 6 ⟨0, 0, 0⟩).y - (t.getD 5 ⟨0, 0, 0⟩).y) < 1/1000 →
      bodyScaleB ops t = (t.map (fun p => |p.y|)).foldl max 0) ∧
    (∀ (ops : TrigOps) (kps : List BodyKp),
      bodyScaleB ops (bodyTranslatedB kps) < 1/1000 →
      getNormalizedBodyVector_b ops kps = none) ∧
    (∀ (ops : TrigOps) (kps : List BodyKp),
      ops.hypot
        (((bodyTranslatedA kps).getD 6 ⟨0, 0, 0⟩).x -
          ((bodyTranslatedA kps).getD 5 ⟨0, 0, 0⟩).x)
        (((bodyTranslatedA kps).getD 6 ⟨0, 0, 0⟩).y -
          ((bodyTranslatedA kps).getD 5 ⟨0, 0, 0⟩).y) < 1/1000000 →
      getNormalizedBodyVector_a ops kps = List.replicate 34 0) :=
  ⟨bodyScaleB_shoulder, bodyScaleB_fallback, bodyB_scale_fail,
    bodyA_no_fallback⟩

/-- Witness for C8: a unit-shoulder body uses the shoulder width as its
scale; a degenerate-shoulder body falls back to the vertical extent; an
all-at-origin body fails to the `null` sentinel in the line-832 variant;
the coincident-shoulder body collapses to the line-684 variant's zero
sentinel. -/
theorem body_scale_C8_witness :
    bodyScaleB opsQ bodyW =
      opsQ.hypot ((bodyW.getD 6 ⟨0, 0, 0⟩).x - (bodyW.getD 5 ⟨0, 0, 0⟩).x)
        ((bodyW.getD 6 ⟨0, 0, 0⟩).y - (bodyW.getD 5 ⟨0, 0, 0⟩).y) ∧
    bodyScaleB opsQ (bodyTranslatedB bodyCoShoulder) =
      ((bodyTranslatedB bodyCoShoulder).map (fun p => |p.y|)).foldl max 0 ∧
    getNormalizedBodyVector_b opsQ bodyZeros = none ∧
    getNormalizedBodyVector_a opsQ bodyCoShoulder = List.replicate 34 0 :=
  ⟨body_scale_C8.1 opsQ bodyW
     (by norm_num [bodyW, opsQ, List.getD, List.range_succ]),
   body_scale_C8.2.1 opsQ (bodyTranslatedB bodyCoShoulder)
     (by norm_num [bodyTranslatedB, bodyCoShoulder, opsQ, List.getD,
       List.range_succ]),
   body_scale_C8.2.2.1 opsQ bodyZeros
     (by norm_num [bodyScaleB, bodyTranslatedB, bodyZeros, opsQ, List.getD,
       List.replicate]),
   body_scale_C8.2.2.2 opsQ bodyCoShoulder
     (by norm_num [bodyTranslatedA, bodyValidA, bodyCoShoulder, opsQ,
       List.getD, List.range_succ])⟩

/-- Counterexample for C8 as stated: for the coincident-shoulder body
(confident hips, shoulder width `0`, vertical extent about `23`), the
claim's fallback would produce a valid vector — and the line-832 variant
indeed returns one — but the line-684 variant returns its zero sentinel:
the fallback does not exist there. -/
theorem body_scale_C8_counterexample :
    getNormalizedBodyVector_a opsQ bodyCoShoulder = List.replicate 34 0 ∧
    opsQ.hypot
      (((bodyTranslatedA bodyCoShoulder).getD 6 ⟨0, 0, 0⟩).x -
        ((bodyTranslatedA bodyCoShoulder).getD 5 ⟨0, 0, 0⟩).x)
      (((bodyTranslatedA bodyCoShoulder).getD 6 ⟨0, 0, 0⟩).y -
        ((bodyTranslatedA bodyCoShoulder).getD 5 ⟨0, 0, 0⟩).y) < 1/1000000 ∧
    ¬ (bodyScaleB opsQ (bodyTranslatedB bodyCoShoulder) < 1/1000) ∧
    getNormalizedBodyVector_b opsQ bodyCoShoulder ≠ none := by
  have hsw : opsQ.hypot
      (((bodyTranslatedA bodyCoShoulder).getD 6 ⟨0, 0, 0⟩).x -
        ((bodyTranslatedA bodyCoShoulder).getD 5 ⟨0, 0, 0⟩).x)
      (((bodyTranslatedA bodyCoShoulder).getD 6 ⟨0, 0, 0⟩).y -
        ((bodyTranslatedA bodyCoShoulder).getD 5 ⟨0, 0, 0⟩).y) < 1/1000000 := by
    norm_num [bodyTranslatedA, bodyValidA, bodyCoShoulder, opsQ, List.getD,
      List.range_succ]
  refine ⟨bodyA_no_fallback opsQ bodyCoShoulder hsw, hsw, ?_, ?_⟩
  · norm_num [bodyScaleB, bodyTranslatedB, bodyCoShoulder, opsQ, List.getD,
      List.range_succ]
  · norm_num [getNormalizedBodyVector_b, bodyScaleB, bodyTranslatedB,
      bodyCoShoulder, opsQ, List.getD, List.range_succ, abs_eq_max_neg]
    exact Option.some_ne_none _

end VisionLab
